import Mathlib

/-!
# Verification of the Relocation city scoring and comparison engine

Shallow embedding of the scoring/comparison core:
  * `utils/city_score.py` — value parsers (`parse_price`, `parse_percentage`),
    the four single-city sub-score formulas and `get_city_score`;
  * `routers/app.py` — the two-city comparator `compare_cities` with its
    helpers `extract_numeric` and `calculate_normalized_percentage`.

Python floats are modelled as `ℚ`; strings as Lean `String` / `List Char`.
Python exceptions (`KeyError`, `ValueError`, `ZeroDivisionError`) are
modelled with `Except`/`Option`; metric records (dicts) are modelled as
partial maps `String → Option String`.

Python's builtin `float(s)` is modelled on its finite decimal-literal
fragment (optional sign, digits with an optional decimal point) which is
the fragment exercised by the data encodings in this repository; the
exponent / `inf` / `nan` / underscore forms are outside the model.
`round(x, 2)` is modelled as rounding to the nearest multiple of 1/100
(Python uses round-half-even on binary floats; the two agree except at
exact midpoints, which no statement below depends on).
-/

set_option maxRecDepth 4000

namespace CityScore

/-- `s.replace(c, "")` for a single character: removes every occurrence of `c`. -/
def removeChar (c : Char) : List Char → List Char
  | [] => []
  | x :: xs => if x = c then removeChar c xs else x :: removeChar c xs

/-- `s.replace(c, r)` for a single-character pattern: replaces every
occurrence of `c` by the string `r`. -/
def replaceChar (c : Char) (r : List Char) : List Char → List Char
  | [] => []
  | x :: xs => (if x = c then r else [x]) ++ replaceChar c r xs

/-- Python whitespace characters stripped by `str.strip()`. -/
def isPyWhitespace (c : Char) : Bool :=
  c = ' ' || c = '\t' || c = '\n' || c = '\r' || c = '\x0b' || c = '\x0c'

/-- `str.strip()`: drops leading and trailing whitespace. -/
def pyStrip (l : List Char) : List Char :=
  ((l.dropWhile isPyWhitespace).reverse.dropWhile isPyWhitespace).reverse

/-- Numeric value of a digit string (most significant digit first). -/
def digitsToNat (l : List Char) : Nat :=
  l.foldl (fun a c => 10 * a + (c.toNat - 48)) 0

/-- Python `float(s)` on an unsigned finite decimal literal:
`digits`, `digits.`, `.digits` or `digits.digits`; anything else fails. -/
def pyFloatUnsigned (l : List Char) : Option ℚ :=
  let d := l.takeWhile Char.isDigit
  let r := l.dropWhile Char.isDigit
  match r with
  | [] => if d.isEmpty then none else some (digitsToNat d : ℚ)
  | '.' :: r2 =>
      let f := r2.takeWhile Char.isDigit
      let r3 := r2.dropWhile Char.isDigit
      if r3.isEmpty then
        if d.isEmpty && f.isEmpty then none
        else some ((digitsToNat d : ℚ) + (digitsToNat f : ℚ) / 10 ^ f.length)
      else none
  | _ => none

/-- Python `float(s)` (finite decimal-literal fragment): optional sign
followed by an unsigned decimal literal. -/
def pyFloat (l : List Char) : Option ℚ :=
  match l with
  | '-' :: rest => (pyFloatUnsigned rest).map (fun q => -q)
  | '+' :: rest => pyFloatUnsigned rest
  | _ => pyFloatUnsigned l

/-- The suffix characters accepted by the `[KMBT]?` group (case-insensitive). -/
def isPriceSuffix (c : Char) : Bool :=
  c = 'K' || c = 'M' || c = 'B' || c = 'T' ||
  c = 'k' || c = 'm' || c = 'b' || c = 't'

/-- `multipliers.get(suffix.upper(), 1)` from `parse_price`. -/
def suffixMultiplier (c : Char) : ℚ :=
  if c = 'K' ∨ c = 'k' then 1000
  else if c = 'M' ∨ c = 'm' then 1000000
  else if c = 'B' ∨ c = 'b' then 1000000000
  else if c = 'T' ∨ c = 't' then 1000000000000
  else 1

/-- `price_str.replace('$','').replace(',','').replace(' ','')`:
the character stripping performed by `parse_price` before regex matching. -/
def stripPrice (l : List Char) : List Char :=
  removeChar ' ' (removeChar ',' (removeChar '$' l))

/-- The regex match `^(\d+(\.\d+)?)([KMBT]?)$` of `parse_price`, applied to
the already-stripped string, returning `float(number) * multiplier` on a
match.  `\d+` and `\.\d+` are matched greedily, which coincides with the
backtracking regex because a digit can follow neither group when the whole
pattern is to reach `$`. -/
def parsePriceCore (t : List Char) : Option ℚ :=
  let d := t.takeWhile Char.isDigit
  let r := t.dropWhile Char.isDigit
  if d.isEmpty then none
  else
    match r with
    | [] => some (digitsToNat d : ℚ)
    | '.' :: r2 =>
        let f := r2.takeWhile Char.isDigit
        let r3 := r2.dropWhile Char.isDigit
        if f.isEmpty then none
        else
          let v : ℚ := (digitsToNat d : ℚ) + (digitsToNat f : ℚ) / 10 ^ f.length
          match r3 with
          | [] => some v
          | [c] => if isPriceSuffix c then some (v * suffixMultiplier c) else none
          | _ => none
    | [c] => if isPriceSuffix c then some ((digitsToNat d : ℚ) * suffixMultiplier c) else none
    | _ => none

/-- `parse_price` from `utils/city_score.py`: strip `$`, `,`, spaces, then
match `^(\d+(\.\d+)?)([KMBT]?)$` case-insensitively and apply the suffix
multiplier; `none` models the raised `ValueError` on a failed match. -/
def parse_price (s : String) : Option ℚ :=
  parsePriceCore (stripPrice s.data)

/-- `parse_percentage` from `utils/city_score.py`:
`float(percent_str.replace('%', ''))` — note `str.replace` removes *every*
`%`, wherever it occurs, before the float conversion. -/
def parse_percentage (s : String) : Option ℚ :=
  pyFloat (removeChar '%' s.data)

/-! ## Single-city scorer (`utils/city_score.py`) -/

/-- The Python exceptions that the scoring code can raise. -/
inductive PyError where
  | keyError (field : String)
  | valueError
  | zeroDivisionError
deriving DecidableEq, Repr

/-- A metric record: a Python dict from field name to string value,
modelled as a partial map. -/
def Record := String → Option String

/-- A record built from an association list (first binding wins). -/
def mkRecord (l : List (String × String)) : Record :=
  fun k => (l.find? (fun p => p.1 = k)).map (fun p => p.2)

/-- `city_data[k]`: a dict lookup, raising `KeyError` on a missing key. -/
def getField (r : Record) (k : String) : Except PyError String :=
  match r k with
  | some v => Except.ok v
  | none => Except.error (PyError.keyError k)

/-- `float(s)`, with `ValueError` on a non-numeric string. -/
def pyFloatE (s : String) : Except PyError ℚ :=
  match pyFloat s.data with
  | some q => Except.ok q
  | none => Except.error PyError.valueError

/-- `parse_price(s)` in an exception-propagating context
(`ValueError` on a failed match). -/
def parsePriceE (s : String) : Except PyError ℚ :=
  match parse_price s with
  | some q => Except.ok q
  | none => Except.error PyError.valueError

/-- `parse_percentage(s)` in an exception-propagating context. -/
def parsePercentageE (s : String) : Except PyError ℚ :=
  match parse_percentage s with
  | some q => Except.ok q
  | none => Except.error PyError.valueError

/-- `float(city_data[k])`. -/
def getFloat (r : Record) (k : String) : Except PyError ℚ :=
  match r k with
  | some v => pyFloatE v
  | none => Except.error (PyError.keyError k)

/-- `parse_percentage(city_data[k])`. -/
def getPct (r : Record) (k : String) : Except PyError ℚ :=
  match r k with
  | some v => parsePercentageE v
  | none => Except.error (PyError.keyError k)

/-- Module-level constant `max_percentage = 99`. -/
def max_percentage : ℚ := 99

/-- Module-level constant `min_percentage = 55`. -/
def min_percentage : ℚ := 55

/-- `calculate_housing_affordability(home_price, median_income)`:
parse both prices, clamp the price/income ratio to `[2, 10]`, rescale, and
cap at `max_percentage`; the explicit `zeroDivisionError` branch models
Python's `ZeroDivisionError` on `home_price_value / median_income_value`
when the parsed income is zero. -/
def calculate_housing_affordability (home_price median_income : String) :
    Except PyError ℚ :=
  match parsePriceE home_price with
  | Except.error e => Except.error e
  | Except.ok home_price_value =>
    match parsePriceE median_income with
    | Except.error e => Except.error e
    | Except.ok median_income_value =>
      if median_income_value = 0 then Except.error PyError.zeroDivisionError
      else
        let ratio := home_price_value / median_income_value
        let ratio := max 2 (min 10 ratio)
        let score := ((10 - ratio) / 8) * 70 + min_percentage
        Except.ok (min score max_percentage)

/-- The seven factor fields of `calculate_quality_of_life`, in source order. -/
def qolFields : List String :=
  ["education", "healthcare_fitness", "weather_grade", "air_quality_index",
   "commute_transit_score", "accessibility", "culture_entertainment"]

/-- `calculate_quality_of_life(city_data)`: mean of the seven factors
(each `float(city_data[...])`), rescaled and capped at `max_percentage`. -/
def calculate_quality_of_life (r : Record) : Except PyError ℚ :=
  match qolFields.mapM (getFloat r) with
  | Except.error e => Except.error e
  | Except.ok factors =>
    let average_score := factors.sum / (factors.length : ℚ)
    let score := (average_score / 100) * 70 + min_percentage
    Except.ok (min score max_percentage)

/-- `calculate_job_market_strength(city_data)`: weighted combination of an
unemployment score, a recent-growth score and the future growth index,
rescaled and capped at `max_percentage`. -/
def calculate_job_market_strength (r : Record) : Except PyError ℚ :=
  match getPct r "unemployment_rate" with
  | Except.error e => Except.error e
  | Except.ok unemployment_rate =>
    match getPct r "recent_job_growth" with
    | Except.error e => Except.error e
    | Except.ok recent_job_growth =>
      match getFloat r "future_job_growth_index" with
      | Except.error e => Except.error e
      | Except.ok future_job_growth_index =>
        let unemployment_score := ((10 - unemployment_rate) / 10) * 100
        let recent_job_growth_score := ((recent_job_growth + 5) / 10) * 100
        let future_job_growth_score := future_job_growth_index
        let weighted_score :=
          unemployment_score * 0.4 +
          recent_job_growth_score * 0.2 +
          future_job_growth_score * 0.4
        let score := (weighted_score / 100) * 70 + min_percentage
        Except.ok (min score max_percentage)

/-- The three cost-factor fields of `calculate_living_affordability`. -/
def costFields : List String :=
  ["utilities", "food_groceries", "transportation_cost"]

/-- The three tax-factor fields of `calculate_living_affordability`. -/
def taxFields : List String :=
  ["sales_tax", "state_income_tax", "property_tax"]

/-- `calculate_living_affordability(city_data)`: a 0.7/0.3 weighting of a
normalized cost index (mean of the cost factors, parsed as plain floats)
and a normalized tax score (mean of the tax factors, parsed as
percentages), rescaled and capped at `max_percentage`. -/
def calculate_living_affordability (r : Record) : Except PyError ℚ :=
  match costFields.mapM (getFloat r) with
  | Except.error e => Except.error e
  | Except.ok cost_factors =>
    match taxFields.mapM (getPct r) with
    | Except.error e => Except.error e
    | Except.ok tax_factors =>
      let cost_index := cost_factors.sum / (cost_factors.length : ℚ)
      let normalized_cost_index := (1 - cost_index / 150) * 100
      let average_tax_rate := tax_factors.sum / (tax_factors.length : ℚ)
      let normalized_tax_score := (1 - average_tax_rate / 15) * 100
      let weighted_score :=
        normalized_cost_index * 0.7 +
        normalized_tax_score * 0.3
      let score := (weighted_score / 100) * 70 + min_percentage
      Except.ok (min score max_percentage)

/-- Python `round(x, 2)`: rounding to the nearest multiple of 1/100 (see
the module comment on midpoint behavior). -/
def round2 (q : ℚ) : ℚ := (round (q * 100) : ℚ) / 100

/-- The response dict of `get_city_score`. -/
structure ScoreResult where
  housing_affordability : ℚ
  quality_of_life : ℚ
  job_market_strength : ℚ
  living_affordability : ℚ
  overall_city_score : ℚ
deriving DecidableEq, Repr

/-- `get_city_score(city_data)` from `utils/city_score.py`: the four
sub-scores, their mean, all rounded to two decimals; any exception
raised along the way propagates. -/
def get_city_score (r : Record) : Except PyError ScoreResult :=
  match getField r "home_price" with
  | Except.error e => Except.error e
  | Except.ok home_price =>
    match getField r "median_household_income" with
    | Except.error e => Except.error e
    | Except.ok median_household_income =>
      match calculate_housing_affordability home_price median_household_income with
      | Except.error e => Except.error e
      | Except.ok housing_affordability =>
        match calculate_quality_of_life r with
        | Except.error e => Except.error e
        | Except.ok quality_of_life =>
          match calculate_job_market_strength r with
          | Except.error e => Except.error e
          | Except.ok job_market_strength =>
            match calculate_living_affordability r with
            | Except.error e => Except.error e
            | Except.ok living_affordability =>
              let overall_city_score :=
                (housing_affordability + quality_of_life +
                 job_market_strength + living_affordability) / 4
              Except.ok
                { housing_affordability := round2 housing_affordability
                  quality_of_life := round2 quality_of_life
                  job_market_strength := round2 job_market_strength
                  living_affordability := round2 living_affordability
                  overall_city_score := round2 overall_city_score }

/-! ## Two-city comparator (`routers/app.py`) -/

/-- `extract_numeric(value)` from `compare_cities`:
`float(value.replace("$", "").replace("K", "000").replace("M", "000000")
.replace("B", "000000000").replace(",", "").replace(" ", "").strip())`.
Note the textual replacement of the (uppercase-only) `K`/`M`/`B` suffixes
by strings of zeros, wherever they occur. -/
def extract_numeric (s : String) : Option ℚ :=
  pyFloat (pyStrip (removeChar ' ' (removeChar ','
    (replaceChar 'B' "000000000".data
      (replaceChar 'M' "000000".data
        (replaceChar 'K' "000".data
          (removeChar '$' s.data)))))))

/-- `calculate_normalized_percentage(city1_value, city2_value,
is_higher_better=True)` from `compare_cities`: parse both values with
`extract_numeric` (a `ValueError` from either parse makes the whole term
`0`), form the absolute difference as a percentage of the sum (`0` when
the sum is zero), and negate when lower values are better. -/
def calculate_normalized_percentage (city1_value city2_value : String)
    (is_higher_better : Bool := true) : ℚ :=
  match extract_numeric city1_value, extract_numeric city2_value with
  | some v1, some v2 =>
      let diff := |v2 - v1|
      let total := v1 + v2
      let percentage := if total ≠ 0 then diff / total * 100 else 0
      if is_higher_better then percentage else -percentage
  | _, _ => 0

/-- The `strengths` dict of `compare_cities`. -/
structure Strengths where
  housing_affordability : String
  quality_of_life : String
  job_market_strength : String
  living_affordability : String
deriving DecidableEq, Repr

/-- The response dict of `compare_cities`. -/
structure ComparisonResult where
  housing_affordability : ℚ
  quality_of_life : ℚ
  job_market_strength : ℚ
  living_affordability : ℚ
  overall_city_score : ℚ
  strengths : Strengths
deriving DecidableEq, Repr

/-- The fields `compare_cities` looks up on both records, in source
evaluation order. -/
def comparisonFields : List String :=
  ["home_price", "property_tax", "home_appreciation_rate",
   "education", "healthcare_fitness", "weather_grade", "air_quality_index",
   "culture_entertainment",
   "unemployment_rate", "recent_job_growth", "future_job_growth_index",
   "state_income_tax", "sales_tax", "utilities", "transportation_cost"]

/-- `compare_cities(city1, city2)` from `routers/app.py`: the four
per-dimension composites of normalized percentage differences (with the
source's literal grouping, e.g. `100 - D(...) + D(...) + D(...)` divided
at the end), their mean, rounding to two decimals, and the `> 50`
strength attribution.  `none` models the `KeyError` raised when either
dict is missing a field. -/
def compare_cities (city1 city2 : Record) : Option ComparisonResult :=
  match city1 "home_price" with
  | none => none
  | some hp1 =>
    match city2 "home_price" with
    | none => none
    | some hp2 =>
      match city1 "property_tax" with
      | none => none
      | some pt1 =>
        match city2 "property_tax" with
        | none => none
        | some pt2 =>
          match city1 "home_appreciation_rate" with
          | none => none
          | some ha1 =>
            match city2 "home_appreciation_rate" with
            | none => none
            | some ha2 =>
              match city1 "education" with
              | none => none
              | some ed1 =>
                match city2 "education" with
                | none => none
                | some ed2 =>
                  match city1 "healthcare_fitness" with
                  | none => none
                  | some hf1 =>
                    match city2 "healthcare_fitness" with
                    | none => none
                    | some hf2 =>
                      match city1 "weather_grade" with
                      | none => none
                      | some wg1 =>
                        match city2 "weather_grade" with
                        | none => none
                        | some wg2 =>
                          match city1 "air_quality_index" with
                          | none => none
                          | some aq1 =>
                            match city2 "air_quality_index" with
                            | none => none
                            | some aq2 =>
                              match city1 "culture_entertainment" with
                              | none => none
                              | some ce1 =>
                                match city2 "culture_entertainment" with
                                | none => none
                                | some ce2 =>
                                  match city1 "unemployment_rate" with
                                  | none => none
                                  | some ur1 =>
                                    match city2 "unemployment_rate" with
                                    | none => none
                                    | some ur2 =>
                                      match city1 "recent_job_growth" with
                                      | none => none
                                      | some rj1 =>
                                        match city2 "recent_job_growth" with
                                        | none => none
                                        | some rj2 =>
                                          match city1 "future_job_growth_index" with
                                          | none => none
                                          | some fj1 =>
                                            match city2 "future_job_growth_index" with
                                            | none => none
                                            | some fj2 =>
                                              match city1 "state_income_tax" with
                                              | none => none
                                              | some st1 =>
                                                match city2 "state_income_tax" with
                                                | none => none
                                                | some st2 =>
                                                  match city1 "sales_tax" with
                                                  | none => none
                                                  | some sa1 =>
                                                    match city2 "sales_tax" with
                                                    | none => none
                                                    | some sa2 =>
                                                      match city1 "utilities" with
                                                      | none => none
                                                      | some ut1 =>
                                                        match city2 "utilities" with
                                                        | none => none
                                                        | some ut2 =>
                                                          match city1 "transportation_cost" with
                                                          | none => none
                                                          | some tc1 =>
                                                            match city2 "transportation_cost" with
                                                            | none => none
                                                            | some tc2 =>
                                                              let housing_affordability :=
                                                                (100 - calculate_normalized_percentage hp1 hp2 false
                                                                  + calculate_normalized_percentage pt1 pt2 false
                                                                  + calculate_normalized_percentage ha1 ha2) / 3
                                                              let quality_of_life :=
                                                                (calculate_normalized_percentage ed1 ed2
                                                                  + calculate_normalized_percentage hf1 hf2
                                                                  + calculate_normalized_percentage wg1 wg2
                                                                  + 100 - calculate_normalized_percentage aq1 aq2 false
                                                                  + calculate_normalized_percentage ce1 ce2) / 5
                                                              let job_market_strength :=
                                                                (100 - calculate_normalized_percentage ur1 ur2 false
                                                                  + calculate_normalized_percentage rj1 rj2
                                                                  + calculate_normalized_percentage fj1 fj2) / 3
                                                              let living_affordability :=
                                                                (100 - calculate_normalized_percentage st1 st2 false
                                                                  + 100 - calculate_normalized_percentage sa1 sa2 false
                                                                  + 100 - calculate_normalized_percentage ut1 ut2 false
                                                                  + 100 - calculate_normalized_percentage tc1 tc2 false) / 4
                                                              let overall_city_score :=
                                                                (housing_affordability + quality_of_life +
                                                                 job_market_strength + living_affordability) / 4
                                                              some
                                                                { housing_affordability := round2 housing_affordability
                                                                  quality_of_life := round2 quality_of_life
                                                                  job_market_strength := round2 job_market_strength
                                                                  living_affordability := round2 living_affordability
                                                                  overall_city_score := round2 overall_city_score
                                                                  strengths :=
                                                                    { housing_affordability := if housing_affordability > 50 then "City 1" else "City 2"
                                                                      quality_of_life := if quality_of_life > 50 then "City 1" else "City 2"
                                                                      job_market_strength := if job_market_strength > 50 then "City 1" else "City 2"
                                                                      living_affordability := if living_affordability > 50 then "City 1" else "City 2" } }

/-! ## Spec-side characterizations and concrete records -/

/-- The language of the spec's regex `^(\d+(\.\d+)?)([KMBT]?)$` (applied
after stripping): a nonempty digit group, an optional fraction group
(a dot followed by at least one digit), an optional one-character
case-insensitive suffix group. -/
def pricePattern (t : List Char) : Prop :=
  ∃ d f sfx : List Char,
    t = d ++ f ++ sfx ∧ d ≠ [] ∧ (∀ c ∈ d, c.isDigit) ∧
    (f = [] ∨ ∃ fd, f = '.' :: fd ∧ fd ≠ [] ∧ ∀ c ∈ fd, c.isDigit) ∧
    (sfx = [] ∨ ∃ c, sfx = [c] ∧ isPriceSuffix c)

/-- Numeric value of the regex's optional fraction group
(`[]` or `'.' :: fd`). -/
def fractionValue : List Char → ℚ
  | [] => 0
  | _ :: fd => (digitsToNat fd : ℚ) / 10 ^ fd.length

/-- Multiplier of the regex's optional suffix group (`[]` or `[c]`). -/
def suffixValue : List Char → ℚ
  | [] => 1
  | c :: _ => suffixMultiplier c

/-- The computed value of an exception-free computation, `0` when an
exception was raised (used only to state hypotheses about parsed field
values). -/
def valueOrZero : Except PyError ℚ → ℚ
  | Except.ok q => q
  | Except.error _ => 0

/-- A well-formed metric record with every value in its nominal range. -/
def goodRecord : Record := mkRecord [
  ("home_price", "500000"), ("median_household_income", "100000"),
  ("education", "80"), ("healthcare_fitness", "70"), ("weather_grade", "60"),
  ("air_quality_index", "50"), ("commute_transit_score", "40"),
  ("accessibility", "90"), ("culture_entertainment", "75"),
  ("unemployment_rate", "5%"), ("recent_job_growth", "2%"),
  ("future_job_growth_index", "60"),
  ("utilities", "100"), ("food_groceries", "120"), ("transportation_cost", "80"),
  ("sales_tax", "6%"), ("state_income_tax", "4%"), ("property_tax", "2%")]

/-- A record on which every field parses, but whose quality-of-life
factors are negative numbers (each the string `"-100"`, accepted by
`float`). -/
def negativeFactorsRecord : Record := mkRecord [
  ("home_price", "500000"), ("median_household_income", "100000"),
  ("education", "-100"), ("healthcare_fitness", "-100"), ("weather_grade", "-100"),
  ("air_quality_index", "-100"), ("commute_transit_score", "-100"),
  ("accessibility", "-100"), ("culture_entertainment", "-100"),
  ("unemployment_rate", "5%"), ("recent_job_growth", "2%"),
  ("future_job_growth_index", "60"),
  ("utilities", "100"), ("food_groceries", "120"), ("transportation_cost", "80"),
  ("sales_tax", "6%"), ("state_income_tax", "4%"), ("property_tax", "2%")]

/-- A record identical to `goodRecord` except that
`median_household_income` is the parseable string `"0"`. -/
def zeroIncomeRecord : Record := mkRecord [
  ("home_price", "500000"), ("median_household_income", "0"),
  ("education", "80"), ("healthcare_fitness", "70"), ("weather_grade", "60"),
  ("air_quality_index", "50"), ("commute_transit_score", "40"),
  ("accessibility", "90"), ("culture_entertainment", "75"),
  ("unemployment_rate", "5%"), ("recent_job_growth", "2%"),
  ("future_job_growth_index", "60"),
  ("utilities", "100"), ("food_groceries", "120"), ("transportation_cost", "80"),
  ("sales_tax", "6%"), ("state_income_tax", "4%"), ("property_tax", "2%")]

/-- A comparison record holding every field `compare_cities` reads, each
with the value `"1"`. -/
def unitComparisonRecord : Record := mkRecord
  (comparisonFields.map (fun k => (k, "1")))

/-- A comparison record with every field present but several values
malformed (not numeric). -/
def dirtyComparisonRecord : Record := mkRecord [
  ("home_price", "N/A"), ("property_tax", "unknown"),
  ("home_appreciation_rate", "7"),
  ("education", "80"), ("healthcare_fitness", "n.a."), ("weather_grade", "60"),
  ("air_quality_index", "50"), ("culture_entertainment", "75"),
  ("unemployment_rate", "??"), ("recent_job_growth", "2"),
  ("future_job_growth_index", "60"),
  ("state_income_tax", "4"), ("sales_tax", "6"), ("utilities", "-"),
  ("transportation_cost", "80")]

/-- A comparison record missing the `education` field. -/
def missingFieldRecord : Record := mkRecord
  ((comparisonFields.filter (fun k => k ≠ "education")).map (fun k => (k, "1")))

end CityScore

/-! ## Helper lemmas -/

namespace CityScore

theorem calculate_normalized_percentage_self (v : String) (b : Bool) :
    calculate_normalized_percentage v v b = 0 := by
  unfold calculate_normalized_percentage
  cases h : extract_numeric v with
  | none => simp
  | some x =>
      simp only [h, sub_self, abs_zero]
      split <;> simp

theorem calculate_normalized_percentage_eq_zero_of_parse_failure
    (v1 v2 : String) (b : Bool)
    (h : extract_numeric v1 = none ∨ extract_numeric v2 = none) :
    calculate_normalized_percentage v1 v2 b = 0 := by
  unfold calculate_normalized_percentage
  cases h1 : extract_numeric v1 <;> cases h2 : extract_numeric v2 <;>
    simp_all

theorem exceptMapM_ok {α β : Type} (f : α → Except PyError β) :
    ∀ (l : List α) (l' : List β), l.mapM f = Except.ok l' →
      l'.length = l.length ∧ ∀ b ∈ l', ∃ a ∈ l, f a = Except.ok b := by
  intro l
  induction l with
  | nil =>
      intro l' h
      simp only [List.mapM_nil, pure, Except.pure, Except.ok.injEq] at h
      subst h
      simp
  | cons a t ih =>
      intro l' h
      rw [List.mapM_cons] at h
      cases hfa : f a with
      | error e =>
          rw [hfa] at h
          simp [bind, Except.bind] at h
      | ok b =>
          rw [hfa] at h
          cases hmt : t.mapM f with
          | error e =>
              rw [hmt] at h
              simp [bind, Except.bind] at h
          | ok bs =>
              rw [hmt] at h
              simp only [bind, Except.bind, pure, Except.pure,
                Except.ok.injEq] at h
              subst h
              obtain ⟨hlen, hmem⟩ := ih bs hmt
              refine ⟨by simp [hlen], ?_⟩
              intro x hx
              rcases List.mem_cons.mp hx with rfl | hx2
              · exact ⟨a, List.mem_cons_self a t, hfa⟩
              · obtain ⟨a2, ha2, hfa2⟩ := hmem x hx2
                exact ⟨a2, List.mem_cons_of_mem a ha2, hfa2⟩

theorem round2_ge_55 (x : ℚ) (h : 55 ≤ x) : 55 ≤ round2 x := by
  unfold round2
  rw [round_eq]
  have hfl : (5500 : ℤ) ≤ ⌊x * 100 + 1 / 2⌋ := by
    rw [Int.le_floor]
    push_cast
    linarith
  have : (5500 : ℚ) ≤ (⌊x * 100 + 1 / 2⌋ : ℚ) := by exact_mod_cast hfl
  linarith

theorem round2_le_99 (x : ℚ) (h : x ≤ 99) : round2 x ≤ 99 := by
  unfold round2
  rw [round_eq]
  have hfl : ⌊x * 100 + 1 / 2⌋ < (9901 : ℤ) := by
    rw [Int.floor_lt]
    push_cast
    linarith
  have : (⌊x * 100 + 1 / 2⌋ : ℚ) ≤ 9900 := by exact_mod_cast Int.lt_add_one_iff.mp hfl
  linarith

theorem calculate_housing_affordability_bounds (hp mi : String) (q : ℚ)
    (h : calculate_housing_affordability hp mi = Except.ok q) :
    55 ≤ q ∧ q ≤ 99 := by
  unfold calculate_housing_affordability at h
  cases hp1 : parsePriceE hp <;> rw [hp1] at h
  · simp at h
  rename_i a
  cases hp2 : parsePriceE mi <;> rw [hp2] at h
  · simp at h
  rename_i b
  by_cases hb : b = 0
  · simp [hb] at h
  · simp only [hb, if_false, Except.ok.injEq] at h
    subst h
    have h2 : (2 : ℚ) ≤ max 2 (min 10 (a / b)) := le_max_left _ _
    have h10 : max 2 (min 10 (a / b)) ≤ 10 :=
      max_le (by norm_num) (min_le_left _ _)
    constructor
    · refine le_min ?_ (by norm_num [max_percentage])
      rw [min_percentage]
      nlinarith
    · exact min_le_right _ _

theorem calculate_quality_of_life_bounds (r : Record) (q : ℚ)
    (h : calculate_quality_of_life r = Except.ok q) :
    q ≤ 99 ∧
    ((∀ k ∈ qolFields, 0 ≤ valueOrZero (getFloat r k)) → 55 ≤ q) := by
  unfold calculate_quality_of_life at h
  cases hm : qolFields.mapM (getFloat r) <;> rw [hm] at h
  · simp at h
  rename_i factors
  simp only [Except.ok.injEq] at h
  subst h
  constructor
  · exact min_le_right _ _
  · intro hnn
    obtain ⟨-, hmem⟩ := exceptMapM_ok (getFloat r) qolFields factors hm
    have hsum : 0 ≤ factors.sum := by
      apply List.sum_nonneg
      intro b hb
      obtain ⟨k, hk, hfk⟩ := hmem b hb
      have := hnn k hk
      rwa [hfk, valueOrZero] at this
    have havg : 0 ≤ factors.sum / (factors.length : ℚ) := by positivity
    refine le_min ?_ (by norm_num [max_percentage])
    rw [min_percentage]
    nlinarith

theorem calculate_job_market_strength_bounds (r : Record) (q : ℚ)
    (h : calculate_job_market_strength r = Except.ok q) :
    q ≤ 99 ∧
    (valueOrZero (getPct r "unemployment_rate") ≤ 10 →
     -5 ≤ valueOrZero (getPct r "recent_job_growth") →
     0 ≤ valueOrZero (getFloat r "future_job_growth_index") → 55 ≤ q) := by
  unfold calculate_job_market_strength at h
  cases h1 : getPct r "unemployment_rate" <;> rw [h1] at h
  · simp at h
  rename_i u
  cases h2 : getPct r "recent_job_growth" <;> rw [h2] at h
  · simp at h
  rename_i g
  cases h3 : getFloat r "future_job_growth_index" <;> rw [h3] at h
  · simp at h
  rename_i f
  simp only [Except.ok.injEq] at h
  subst h
  constructor
  · exact min_le_right _ _
  · intro hu hg hf
    rw [valueOrZero] at hu
    rw [valueOrZero] at hg
    rw [valueOrZero] at hf
    refine le_min ?_ (by norm_num [max_percentage])
    rw [min_percentage]
    nlinarith

theorem calculate_living_affordability_bounds (r : Record) (q : ℚ)
    (h : calculate_living_affordability r = Except.ok q) :
    q ≤ 99 ∧
    ((∀ k ∈ costFields, valueOrZero (getFloat r k) ≤ 150) →
     (∀ k ∈ taxFields, valueOrZero (getPct r k) ≤ 15) → 55 ≤ q) := by
  unfold calculate_living_affordability at h
  cases hc : costFields.mapM (getFloat r) <;> rw [hc] at h
  · simp at h
  rename_i cost
  cases ht : taxFields.mapM (getPct r) <;> rw [ht] at h
  · simp at h
  rename_i tax
  simp only [Except.ok.injEq] at h
  subst h
  refine ⟨min_le_right _ _, ?_⟩
  intro hcost htax
  obtain ⟨hclen, hcmem⟩ := exceptMapM_ok (getFloat r) costFields cost hc
  obtain ⟨htlen, htmem⟩ := exceptMapM_ok (getPct r) taxFields tax ht
  have hclen3 : cost.length = 3 := by rw [hclen]; rfl
  have htlen3 : tax.length = 3 := by rw [htlen]; rfl
  have hcsum : cost.sum ≤ 450 := by
    calc cost.sum ≤ cost.length • (150 : ℚ) := by
          apply List.sum_le_card_nsmul
          intro x hx
          obtain ⟨k, hk, hfk⟩ := hcmem x hx
          have hb := hcost k hk
          rwa [hfk, valueOrZero] at hb
      _ = 450 := by rw [hclen3]; norm_num
  have htsum : tax.sum ≤ 45 := by
    calc tax.sum ≤ tax.length • (15 : ℚ) := by
          apply List.sum_le_card_nsmul
          intro x hx
          obtain ⟨k, hk, hfk⟩ := htmem x hx
          have hb := htax k hk
          rwa [hfk, valueOrZero] at hb
      _ = 45 := by rw [htlen3]; norm_num
  refine le_min ?_ (by norm_num [max_percentage])
  rw [min_percentage, hclen3, htlen3]
  push_cast
  nlinarith [hcsum, htsum]

theorem removeChar_eq_filter (c : Char) (l : List Char) :
    removeChar c l = l.filter (fun x => x != c) := by
  induction l with
  | nil => rfl
  | cons x xs ih =>
      by_cases hx : x = c
      · simp [removeChar, hx, ih, List.filter_cons]
      · simp [removeChar, hx, ih, List.filter_cons]

theorem isPriceSuffix_cases {c : Char} (h : isPriceSuffix c = true) :
    c = 'K' ∨ c = 'M' ∨ c = 'B' ∨ c = 'T' ∨
    c = 'k' ∨ c = 'm' ∨ c = 'b' ∨ c = 't' := by
  simp [isPriceSuffix] at h
  tauto

theorem isPriceSuffix_not_digit {c : Char} (h : isPriceSuffix c = true) :
    c.isDigit = false := by
  rcases isPriceSuffix_cases h with rfl|rfl|rfl|rfl|rfl|rfl|rfl|rfl <;> decide

theorem takeWhile_digits_append {d rest : List Char}
    (hdd : ∀ c ∈ d, c.isDigit)
    (hrest : rest = [] ∨ ∃ c cs, rest = c :: cs ∧ c.isDigit = false) :
    (d ++ rest).takeWhile Char.isDigit = d ∧
    (d ++ rest).dropWhile Char.isDigit = rest := by
  rcases hrest with rfl | ⟨c, cs, rfl, hc⟩
  · constructor
    · rw [List.takeWhile_append_of_pos hdd]
      simp
    · rw [List.dropWhile_append_of_pos hdd]
      simp
  · constructor
    · rw [List.takeWhile_append_of_pos hdd,
        List.takeWhile_cons_of_neg (by simp [hc])]
      simp
    · rw [List.dropWhile_append_of_pos hdd,
        List.dropWhile_cons_of_neg (by simp [hc])]

theorem parsePriceCore_of_pattern (d f sfx : List Char)
    (hd : d ≠ []) (hdd : ∀ c ∈ d, c.isDigit)
    (hf : f = [] ∨ ∃ fd, f = '.' :: fd ∧ fd ≠ [] ∧ ∀ c ∈ fd, c.isDigit)
    (hs : sfx = [] ∨ ∃ c, sfx = [c] ∧ isPriceSuffix c) :
    parsePriceCore (d ++ f ++ sfx) =
      some (((digitsToNat d : ℚ) + fractionValue f) * suffixValue sfx) := by
  have hde : d.isEmpty = false := by simpa [List.isEmpty_iff] using hd
  rcases hf with rfl | ⟨fd, rfl, hfd, hfdd⟩
  · rcases hs with rfl | ⟨c, rfl, hc⟩
    · have h1 : d.takeWhile Char.isDigit = d := by
        simpa using (takeWhile_digits_append hdd (Or.inl rfl)).1
      have h2 : d.dropWhile Char.isDigit = [] := by
        simpa using (takeWhile_digits_append hdd (Or.inl rfl)).2
      simp only [List.append_nil]
      simp [parsePriceCore, h1, h2, hde, fractionValue, suffixValue]
    · have hcd := isPriceSuffix_not_digit hc
      have h1 := (takeWhile_digits_append hdd (Or.inr ⟨c, [], rfl, hcd⟩)).1
      have h2 := (takeWhile_digits_append hdd (Or.inr ⟨c, [], rfl, hcd⟩)).2
      simp only [List.append_nil]
      rcases isPriceSuffix_cases hc with rfl|rfl|rfl|rfl|rfl|rfl|rfl|rfl <;>
        simp [parsePriceCore, h1, h2, hde, fractionValue, suffixValue,
          isPriceSuffix, suffixMultiplier]
  · have hfde : fd.isEmpty = false := by simpa [List.isEmpty_iff] using hfd
    rcases hs with rfl | ⟨c, rfl, hc⟩
    · have h1 := (takeWhile_digits_append hdd
        (Or.inr ⟨'.', fd, rfl, by decide⟩)).1
      have h2 := (takeWhile_digits_append hdd
        (Or.inr ⟨'.', fd, rfl, by decide⟩)).2
      have h3 : fd.takeWhile Char.isDigit = fd := by
        simpa using (takeWhile_digits_append hfdd (Or.inl rfl)).1
      have h4 : fd.dropWhile Char.isDigit = [] := by
        simpa using (takeWhile_digits_append hfdd (Or.inl rfl)).2
      simp only [List.append_nil]
      simp [parsePriceCore, h1, h2, h3, h4, hde, hfde, fractionValue,
        suffixValue]
    · have hcd := isPriceSuffix_not_digit hc
      have hassoc : d ++ ('.' :: fd) ++ [c] = d ++ ('.' :: (fd ++ [c])) := by
        simp
      have h1 := (takeWhile_digits_append hdd
        (Or.inr ⟨'.', fd ++ [c], rfl, by decide⟩)).1
      have h2 := (takeWhile_digits_append hdd
        (Or.inr ⟨'.', fd ++ [c], rfl, by decide⟩)).2
      have h3 := (takeWhile_digits_append hfdd (Or.inr ⟨c, [], rfl, hcd⟩)).1
      have h4 := (takeWhile_digits_append hfdd (Or.inr ⟨c, [], rfl, hcd⟩)).2
      rw [hassoc]
      rcases isPriceSuffix_cases hc with rfl|rfl|rfl|rfl|rfl|rfl|rfl|rfl <;>
        simp [parsePriceCore, h1, h2, h3, h4, hde, hfde, fractionValue,
          suffixValue, isPriceSuffix, suffixMultiplier]

theorem pricePattern_of_isSome (t : List Char)
    (h : (parsePriceCore t).isSome) : pricePattern t := by
  simp only [parsePriceCore] at h
  set d := t.takeWhile Char.isDigit with hd0
  have htd : t = d ++ t.dropWhile Char.isDigit :=
    (List.takeWhile_append_dropWhile Char.isDigit t).symm
  have hdd : ∀ c ∈ d, c.isDigit := fun c hc => List.mem_takeWhile_imp hc
  split at h
  · simp at h
  rename_i hne
  have hdnil : d ≠ [] := by simpa [List.isEmpty_iff] using hne
  split at h
  case h_1 heq =>
    refine ⟨d, [], [], ?_, hdnil, hdd, Or.inl rfl, Or.inl rfl⟩
    rw [htd, heq]
    simp
  case h_2 r2 heq =>
    set fd := r2.takeWhile Char.isDigit with hf0
    have hr2 : r2 = fd ++ r2.dropWhile Char.isDigit :=
      (List.takeWhile_append_dropWhile Char.isDigit r2).symm
    have hfdd : ∀ c ∈ fd, c.isDigit := fun c hc => List.mem_takeWhile_imp hc
    split at h
    · simp at h
    rename_i hfe
    have hfnil : fd ≠ [] := by simpa [List.isEmpty_iff] using hfe
    split at h
    case h_1 heq2 =>
      refine ⟨d, '.' :: fd, [], ?_, hdnil, hdd,
        Or.inr ⟨fd, rfl, hfnil, hfdd⟩, Or.inl rfl⟩
      rw [htd, heq, hr2, heq2]
      simp
    case h_2 c heq2 =>
      split at h
      · rename_i hsuf
        refine ⟨d, '.' :: fd, [c], ?_, hdnil, hdd,
          Or.inr ⟨fd, rfl, hfnil, hfdd⟩, Or.inr ⟨c, rfl, hsuf⟩⟩
        rw [htd, heq, hr2, heq2]
        simp
      · simp at h
    case h_3 =>
      simp at h
  case h_3 c cdot heq =>
    split at h
    · rename_i hsuf
      refine ⟨d, [], [c], ?_, hdnil, hdd, Or.inl rfl, Or.inr ⟨c, rfl, hsuf⟩⟩
      rw [htd, heq]
      simp
    · simp at h
  case h_4 =>
    simp at h

theorem removeChar_append (a : Char) (l1 l2 : List Char) :
    removeChar a (l1 ++ l2) = removeChar a l1 ++ removeChar a l2 := by
  induction l1 with
  | nil => rfl
  | cons x xs ih =>
      by_cases hx : x = a <;> simp [removeChar, hx, ih]

theorem removeChar_of_not_mem {a : Char} {l : List Char} (h : a ∉ l) :
    removeChar a l = l := by
  induction l with
  | nil => rfl
  | cons x xs ih =>
      have hx : x ≠ a := fun hxa => h (hxa ▸ List.mem_cons_self x xs)
      simp [removeChar, hx, ih (fun hc => h (List.mem_cons_of_mem x hc))]

theorem replaceChar_append (c : Char) (r l1 l2 : List Char) :
    replaceChar c r (l1 ++ l2) = replaceChar c r l1 ++ replaceChar c r l2 := by
  induction l1 with
  | nil => rfl
  | cons x xs ih => simp [replaceChar, ih]

theorem replaceChar_of_not_mem {c : Char} {l : List Char} (r : List Char)
    (h : c ∉ l) : replaceChar c r l = l := by
  induction l with
  | nil => rfl
  | cons x xs ih =>
      have hx : x ≠ c := fun hxc => h (hxc ▸ List.mem_cons_self x xs)
      simp [replaceChar, hx, ih (fun hc => h (List.mem_cons_of_mem x hc))]

theorem removeChar_replaceChar_comm {a c : Char} (r l : List Char)
    (hac : a ≠ c) (har : a ∉ r) :
    removeChar a (replaceChar c r l) = replaceChar c r (removeChar a l) := by
  induction l with
  | nil => rfl
  | cons x xs ih =>
      by_cases hxc : x = c
      · subst hxc
        have hxa : x ≠ a := fun hxa => hac (hxa ▸ rfl)
        calc removeChar a (replaceChar x r (x :: xs))
            = removeChar a (r ++ replaceChar x r xs) := by simp [replaceChar]
          _ = r ++ removeChar a (replaceChar x r xs) := by
              rw [removeChar_append, removeChar_of_not_mem har]
          _ = r ++ replaceChar x r (removeChar a xs) := by rw [ih]
          _ = replaceChar x r (x :: removeChar a xs) := by simp [replaceChar]
          _ = replaceChar x r (removeChar a (x :: xs)) := by
              rw [show removeChar a (x :: xs) = x :: removeChar a xs from by
                simp [removeChar, hxa]]
      · by_cases hxa : x = a
        · subst hxa
          simp [replaceChar, removeChar, hxc, ih]
        · simp [replaceChar, removeChar, hxc, hxa, ih]

theorem digitsToNat_append_single (l : List Char) (c : Char) :
    digitsToNat (l ++ [c]) = 10 * digitsToNat l + (c.toNat - 48) := by
  simp [digitsToNat, List.foldl_append]

theorem digitsToNat_append_zeros (d : List Char) (k : Nat) :
    digitsToNat (d ++ List.replicate k '0') = digitsToNat d * 10 ^ k := by
  induction k with
  | zero => simp
  | succ n ih =>
      rw [List.replicate_succ', ← List.append_assoc, digitsToNat_append_single,
        ih]
      have h0 : ('0' : Char).toNat - 48 = 0 := by decide
      rw [h0]
      ring

theorem dropWhile_eq_self_of_forall {p : Char → Bool} {l : List Char}
    (h : ∀ c ∈ l, p c = false) : l.dropWhile p = l := by
  cases l with
  | nil => rfl
  | cons x xs =>
      exact List.dropWhile_cons_of_neg (by simp [h x (List.mem_cons_self x xs)])

theorem pyStrip_of_forall {l : List Char}
    (h : ∀ c ∈ l, isPyWhitespace c = false) : pyStrip l = l := by
  unfold pyStrip
  rw [dropWhile_eq_self_of_forall h,
    dropWhile_eq_self_of_forall (fun c hc => h c (List.mem_reverse.mp hc)),
    List.reverse_reverse]

theorem digit_not_pyWhitespace {c : Char} (h : c.isDigit = true) :
    isPyWhitespace c = false := by
  have h1 : c ≠ ' ' := fun hc => absurd (hc ▸ h) (by decide)
  have h2 : c ≠ '\t' := fun hc => absurd (hc ▸ h) (by decide)
  have h3 : c ≠ '\n' := fun hc => absurd (hc ▸ h) (by decide)
  have h4 : c ≠ '\r' := fun hc => absurd (hc ▸ h) (by decide)
  have h5 : c ≠ '\x0b' := fun hc => absurd (hc ▸ h) (by decide)
  have h6 : c ≠ '\x0c' := fun hc => absurd (hc ▸ h) (by decide)
  simp [isPyWhitespace, h1, h2, h3, h4, h5, h6]

theorem pyFloat_digits (l : List Char) (hne : l ≠ [])
    (hdd : ∀ c ∈ l, c.isDigit) :
    pyFloat l = some (digitsToNat l) := by
  have h1 : l.takeWhile Char.isDigit = l := by
    simpa using (takeWhile_digits_append hdd (Or.inl rfl)).1
  have h2 : l.dropWhile Char.isDigit = [] := by
    simpa using (takeWhile_digits_append hdd (Or.inl rfl)).2
  have hle : l.isEmpty = false := by simpa [List.isEmpty_iff] using hne
  unfold pyFloat
  split
  · rename_i l2 rest
    have := hdd '-' (List.mem_cons_self '-' rest)
    simp at this
  · rename_i l2 rest
    have := hdd '+' (List.mem_cons_self '+' rest)
    simp at this
  · simp [pyFloatUnsigned, h1, h2, hle]

theorem compare_cities_isSome_of_fields (c1 c2 : Record)
    (hall : ∀ k ∈ comparisonFields, (c1 k).isSome ∧ (c2 k).isSome) :
    (compare_cities c1 c2).isSome := by
  obtain ⟨x0, hx0⟩ := Option.isSome_iff_exists.mp (hall "home_price" (by simp [comparisonFields])).1
  obtain ⟨y0, hy0⟩ := Option.isSome_iff_exists.mp (hall "home_price" (by simp [comparisonFields])).2
  obtain ⟨x1, hx1⟩ := Option.isSome_iff_exists.mp (hall "property_tax" (by simp [comparisonFields])).1
  obtain ⟨y1, hy1⟩ := Option.isSome_iff_exists.mp (hall "property_tax" (by simp [comparisonFields])).2
  obtain ⟨x2, hx2⟩ := Option.isSome_iff_exists.mp (hall "home_appreciation_rate" (by simp [comparisonFields])).1
  obtain ⟨y2, hy2⟩ := Option.isSome_iff_exists.mp (hall "home_appreciation_rate" (by simp [comparisonFields])).2
  obtain ⟨x3, hx3⟩ := Option.isSome_iff_exists.mp (hall "education" (by simp [comparisonFields])).1
  obtain ⟨y3, hy3⟩ := Option.isSome_iff_exists.mp (hall "education" (by simp [comparisonFields])).2
  obtain ⟨x4, hx4⟩ := Option.isSome_iff_exists.mp (hall "healthcare_fitness" (by simp [comparisonFields])).1
  obtain ⟨y4, hy4⟩ := Option.isSome_iff_exists.mp (hall "healthcare_fitness" (by simp [comparisonFields])).2
  obtain ⟨x5, hx5⟩ := Option.isSome_iff_exists.mp (hall "weather_grade" (by simp [comparisonFields])).1
  obtain ⟨y5, hy5⟩ := Option.isSome_iff_exists.mp (hall "weather_grade" (by simp [comparisonFields])).2
  obtain ⟨x6, hx6⟩ := Option.isSome_iff_exists.mp (hall "air_quality_index" (by simp [comparisonFields])).1
  obtain ⟨y6, hy6⟩ := Option.isSome_iff_exists.mp (hall "air_quality_index" (by simp [comparisonFields])).2
  obtain ⟨x7, hx7⟩ := Option.isSome_iff_exists.mp (hall "culture_entertainment" (by simp [comparisonFields])).1
  obtain ⟨y7, hy7⟩ := Option.isSome_iff_exists.mp (hall "culture_entertainment" (by simp [comparisonFields])).2
  obtain ⟨x8, hx8⟩ := Option.isSome_iff_exists.mp (hall "unemployment_rate" (by simp [comparisonFields])).1
  obtain ⟨y8, hy8⟩ := Option.isSome_iff_exists.mp (hall "unemployment_rate" (by simp [comparisonFields])).2
  obtain ⟨x9, hx9⟩ := Option.isSome_iff_exists.mp (hall "recent_job_growth" (by simp [comparisonFields])).1
  obtain ⟨y9, hy9⟩ := Option.isSome_iff_exists.mp (hall "recent_job_growth" (by simp [comparisonFields])).2
  obtain ⟨x10, hx10⟩ := Option.isSome_iff_exists.mp (hall "future_job_growth_index" (by simp [comparisonFields])).1
  obtain ⟨y10, hy10⟩ := Option.isSome_iff_exists.mp (hall "future_job_growth_index" (by simp [comparisonFields])).2
  obtain ⟨x11, hx11⟩ := Option.isSome_iff_exists.mp (hall "state_income_tax" (by simp [comparisonFields])).1
  obtain ⟨y11, hy11⟩ := Option.isSome_iff_exists.mp (hall "state_income_tax" (by simp [comparisonFields])).2
  obtain ⟨x12, hx12⟩ := Option.isSome_iff_exists.mp (hall "sales_tax" (by simp [comparisonFields])).1
  obtain ⟨y12, hy12⟩ := Option.isSome_iff_exists.mp (hall "sales_tax" (by simp [comparisonFields])).2
  obtain ⟨x13, hx13⟩ := Option.isSome_iff_exists.mp (hall "utilities" (by simp [comparisonFields])).1
  obtain ⟨y13, hy13⟩ := Option.isSome_iff_exists.mp (hall "utilities" (by simp [comparisonFields])).2
  obtain ⟨x14, hx14⟩ := Option.isSome_iff_exists.mp (hall "transportation_cost" (by simp [comparisonFields])).1
  obtain ⟨y14, hy14⟩ := Option.isSome_iff_exists.mp (hall "transportation_cost" (by simp [comparisonFields])).2
  unfold compare_cities
  rw [hx0, hy0, hx1, hy1, hx2, hy2, hx3, hy3, hx4, hy4, hx5, hy5, hx6, hy6, hx7, hy7, hx8, hy8, hx9, hy9, hx10, hy10, hx11, hy11, hx12, hy12, hx13, hy13, hx14, hy14]
  simp

theorem compare_cities_fields_of_isSome (c1 c2 : Record)
    (hs : (compare_cities c1 c2).isSome) :
    ∀ k ∈ comparisonFields, (c1 k).isSome ∧ (c2 k).isSome := by
  obtain ⟨res, h⟩ := Option.isSome_iff_exists.mp hs
  unfold compare_cities at h
  cases hx0 : c1 "home_price" <;> rw [hx0] at h
  · simp at h
  rename_i x0
  cases hy0 : c2 "home_price" <;> rw [hy0] at h
  · simp at h
  rename_i y0
  cases hx1 : c1 "property_tax" <;> rw [hx1] at h
  · simp at h
  rename_i x1
  cases hy1 : c2 "property_tax" <;> rw [hy1] at h
  · simp at h
  rename_i y1
  cases hx2 : c1 "home_appreciation_rate" <;> rw [hx2] at h
  · simp at h
  rename_i x2
  cases hy2 : c2 "home_appreciation_rate" <;> rw [hy2] at h
  · simp at h
  rename_i y2
  cases hx3 : c1 "education" <;> rw [hx3] at h
  · simp at h
  rename_i x3
  cases hy3 : c2 "education" <;> rw [hy3] at h
  · simp at h
  rename_i y3
  cases hx4 : c1 "healthcare_fitness" <;> rw [hx4] at h
  · simp at h
  rename_i x4
  cases hy4 : c2 "healthcare_fitness" <;> rw [hy4] at h
  · simp at h
  rename_i y4
  cases hx5 : c1 "weather_grade" <;> rw [hx5] at h
  · simp at h
  rename_i x5
  cases hy5 : c2 "weather_grade" <;> rw [hy5] at h
  · simp at h
  rename_i y5
  cases hx6 : c1 "air_quality_index" <;> rw [hx6] at h
  · simp at h
  rename_i x6
  cases hy6 : c2 "air_quality_index" <;> rw [hy6] at h
  · simp at h
  rename_i y6
  cases hx7 : c1 "culture_entertainment" <;> rw [hx7] at h
  · simp at h
  rename_i x7
  cases hy7 : c2 "culture_entertainment" <;> rw [hy7] at h
  · simp at h
  rename_i y7
  cases hx8 : c1 "unemployment_rate" <;> rw [hx8] at h
  · simp at h
  rename_i x8
  cases hy8 : c2 "unemployment_rate" <;> rw [hy8] at h
  · simp at h
  rename_i y8
  cases hx9 : c1 "recent_job_growth" <;> rw [hx9] at h
  · simp at h
  rename_i x9
  cases hy9 : c2 "recent_job_growth" <;> rw [hy9] at h
  · simp at h
  rename_i y9
  cases hx10 : c1 "future_job_growth_index" <;> rw [hx10] at h
  · simp at h
  rename_i x10
  cases hy10 : c2 "future_job_growth_index" <;> rw [hy10] at h
  · simp at h
  rename_i y10
  cases hx11 : c1 "state_income_tax" <;> rw [hx11] at h
  · simp at h
  rename_i x11
  cases hy11 : c2 "state_income_tax" <;> rw [hy11] at h
  · simp at h
  rename_i y11
  cases hx12 : c1 "sales_tax" <;> rw [hx12] at h
  · simp at h
  rename_i x12
  cases hy12 : c2 "sales_tax" <;> rw [hy12] at h
  · simp at h
  rename_i y12
  cases hx13 : c1 "utilities" <;> rw [hx13] at h
  · simp at h
  rename_i x13
  cases hy13 : c2 "utilities" <;> rw [hy13] at h
  · simp at h
  rename_i y13
  cases hx14 : c1 "transportation_cost" <;> rw [hx14] at h
  · simp at h
  rename_i x14
  cases hy14 : c2 "transportation_cost" <;> rw [hy14] at h
  · simp at h
  rename_i y14
  intro k hk
  simp only [comparisonFields, List.mem_cons, List.not_mem_nil, or_false] at hk
  rcases hk with rfl|rfl|rfl|rfl|rfl|rfl|rfl|rfl|rfl|rfl|rfl|rfl|rfl|rfl|rfl <;> simp [hx0, hx1, hx2, hx3, hx4, hx5, hx6, hx7, hx8, hx9, hx10, hx11, hx12, hx13, hx14, hy0, hy1, hy2, hy3, hy4, hy5, hy6, hy7, hy8, hy9, hy10, hy11, hy12, hy13, hy14]

end CityScore

/-! ## Claims -/

namespace CityScore

/-- C6: the normalized percentage difference primitive never divides by
zero and never raises: it is a total function, equal inputs give a zero
difference for every string, and on the all-zero input `("0", "0")` the
`total == 0` guard yields `0` (the parse itself succeeding with `0`). -/
theorem normalized_percentage_total_and_zero_guard :
    (∀ v : String, calculate_normalized_percentage v v true = 0) ∧
    extract_numeric "0" = some 0 ∧
    calculate_normalized_percentage "0" "0" true = 0 :=
  ⟨fun v => calculate_normalized_percentage_self v true,
   by decide,
   calculate_normalized_percentage_self "0" true⟩

/-- C7: for every pair of input strings, the normalized percentage
difference is antisymmetric in sign under the `is_higher_better` flip. -/
theorem normalized_percentage_antisymmetric :
    ∀ v1 v2 : String,
      calculate_normalized_percentage v1 v2 true =
        -calculate_normalized_percentage v1 v2 false := by
  intro v1 v2
  unfold calculate_normalized_percentage
  cases h1 : extract_numeric v1 <;> cases h2 : extract_numeric v2 <;> simp

/-- C1 (amended): for every record on which scoring succeeds, the housing
affordability sub-score always lies in `[55, 99]` and all five returned
values are at most `99`; the remaining three sub-scores and the overall
score are bounded below by `55` as well provided every parsed field value
lies in its nominal range (quality factors nonnegative, unemployment rate
at most 10, recent job growth at least −5, future job growth index
nonnegative, cost factors at most 150, tax rates at most 15), i.e.
whenever each formula's raw score is nonnegative. -/
theorem get_city_score_bounds (r : Record) (res : ScoreResult)
    (h : get_city_score r = Except.ok res) :
    (55 ≤ res.housing_affordability ∧ res.housing_affordability ≤ 99 ∧
     res.quality_of_life ≤ 99 ∧ res.job_market_strength ≤ 99 ∧
     res.living_affordability ≤ 99 ∧ res.overall_city_score ≤ 99) ∧
    ((∀ k ∈ qolFields, 0 ≤ valueOrZero (getFloat r k)) →
     valueOrZero (getPct r "unemployment_rate") ≤ 10 →
     -5 ≤ valueOrZero (getPct r "recent_job_growth") →
     0 ≤ valueOrZero (getFloat r "future_job_growth_index") →
     (∀ k ∈ costFields, valueOrZero (getFloat r k) ≤ 150) →
     (∀ k ∈ taxFields, valueOrZero (getPct r k) ≤ 15) →
     55 ≤ res.quality_of_life ∧ 55 ≤ res.job_market_strength ∧
     55 ≤ res.living_affordability ∧ 55 ≤ res.overall_city_score) := by
  unfold get_city_score at h
  split at h
  · simp at h
  rename_i hp hf1
  split at h
  · simp at h
  rename_i mi hf2
  split at h
  · simp at h
  rename_i ha hca
  split at h
  · simp at h
  rename_i qv hcq
  split at h
  · simp at h
  rename_i jv hcj
  split at h
  · simp at h
  rename_i lv hcl
  simp only [Except.ok.injEq] at h
  subst h
  obtain ⟨hha1, hha2⟩ := calculate_housing_affordability_bounds hp mi ha hca
  obtain ⟨hq2, hq1⟩ := calculate_quality_of_life_bounds r qv hcq
  obtain ⟨hj2, hj1⟩ := calculate_job_market_strength_bounds r jv hcj
  obtain ⟨hl2, hl1⟩ := calculate_living_affordability_bounds r lv hcl
  constructor
  · exact ⟨round2_ge_55 _ hha1, round2_le_99 _ hha2, round2_le_99 _ hq2,
      round2_le_99 _ hj2, round2_le_99 _ hl2, round2_le_99 _ (by linarith)⟩
  · intro a1 a2 a3 a4 a5 a6
    have hq := hq1 a1
    have hj := hj1 a2 a3 a4
    have hl := hl1 a5 a6
    exact ⟨round2_ge_55 _ hq, round2_ge_55 _ hj, round2_ge_55 _ hl,
      round2_ge_55 _ (by linarith)⟩

/-- C1 witness: on a fully in-range record the bounds of
`get_city_score_bounds` hold with every hypothesis discharged; in
particular the overall score of the computed result lies in `[55, 99]`. -/
theorem get_city_score_bounds_witness :
    55 ≤ (⟨395/4, 99, 478/5, 8673/100, 4751/50⟩ : ScoreResult).overall_city_score ∧
    (⟨395/4, 99, 478/5, 8673/100, 4751/50⟩ : ScoreResult).overall_city_score ≤ 99 :=
  have hb := get_city_score_bounds goodRecord ⟨395/4, 99, 478/5, 8673/100, 4751/50⟩
    (by
      simp +decide [get_city_score, goodRecord, mkRecord, getField, getFloat, getPct,
        calculate_housing_affordability, calculate_quality_of_life,
        calculate_job_market_strength, calculate_living_affordability,
        parsePriceE, parse_price, parsePriceCore, stripPrice,
        parsePercentageE, parse_percentage, pyFloatE, pyFloat, pyFloatUnsigned,
        removeChar, digitsToNat, qolFields, costFields, taxFields,
        List.mapM, List.mapM.loop, bind, Except.bind, pure, Except.pure,
        min_percentage, max_percentage, List.find?, round2, round_eq]
      norm_num)
  ⟨(hb.2 (by decide) (by decide) (by decide) (by decide) (by decide) (by decide)).2.2.2,
   hb.1.2.2.2.2.2⟩

/-- C1 counterexample: a record on which every required field parses
(witnessed by the successful `Except.ok` result) but whose seven
quality-of-life factors are the parseable string `"-100"`; its
quality-of-life sub-score is `-15`, far below the claimed lower bound of
`55`. -/
theorem get_city_score_quality_below_55 :
    get_city_score negativeFactorsRecord =
      Except.ok ⟨395/4, -15, 478/5, 8673/100, 1663/25⟩ ∧
    ¬ (55 ≤ (-15 : ℚ)) :=
  ⟨by
      simp +decide [get_city_score, negativeFactorsRecord, mkRecord, getField, getFloat, getPct,
        calculate_housing_affordability, calculate_quality_of_life,
        calculate_job_market_strength, calculate_living_affordability,
        parsePriceE, parse_price, parsePriceCore, stripPrice,
        parsePercentageE, parse_percentage, pyFloatE, pyFloat, pyFloatUnsigned,
        removeChar, digitsToNat, qolFields, costFields, taxFields,
        List.mapM, List.mapM.loop, bind, Except.bind, pure, Except.pure,
        min_percentage, max_percentage, List.find?, round2, round_eq]
      norm_num,
   by norm_num⟩

/-- C2 (amended): comparing a record with an identical copy of itself
makes every pairwise difference term zero, so the housing, quality-of-life
and job-market composites fall at 100/3, 20 and 100/3 — all attributed to
"City 2" by the strict `> 50` test — but the living-affordability
composite is exactly `(100 + 100 + 100 + 100) / 4 = 100 > 50`, so that
dimension is attributed to "City 1", not "City 2". -/
theorem compare_cities_self_strengths (c : Record) (res : ComparisonResult)
    (h : compare_cities c c = some res) :
    res.strengths.housing_affordability = "City 2" ∧
    res.strengths.quality_of_life = "City 2" ∧
    res.strengths.job_market_strength = "City 2" ∧
    res.strengths.living_affordability = "City 1" ∧
    res.living_affordability = 100 := by
  unfold compare_cities at h
  cases hv0 : c "home_price" <;> rw [hv0] at h
  · simp at h
  rename_i v0
  cases hv1 : c "property_tax" <;> rw [hv1] at h
  · simp at h
  rename_i v1
  cases hv2 : c "home_appreciation_rate" <;> rw [hv2] at h
  · simp at h
  rename_i v2
  cases hv3 : c "education" <;> rw [hv3] at h
  · simp at h
  rename_i v3
  cases hv4 : c "healthcare_fitness" <;> rw [hv4] at h
  · simp at h
  rename_i v4
  cases hv5 : c "weather_grade" <;> rw [hv5] at h
  · simp at h
  rename_i v5
  cases hv6 : c "air_quality_index" <;> rw [hv6] at h
  · simp at h
  rename_i v6
  cases hv7 : c "culture_entertainment" <;> rw [hv7] at h
  · simp at h
  rename_i v7
  cases hv8 : c "unemployment_rate" <;> rw [hv8] at h
  · simp at h
  rename_i v8
  cases hv9 : c "recent_job_growth" <;> rw [hv9] at h
  · simp at h
  rename_i v9
  cases hv10 : c "future_job_growth_index" <;> rw [hv10] at h
  · simp at h
  rename_i v10
  cases hv11 : c "state_income_tax" <;> rw [hv11] at h
  · simp at h
  rename_i v11
  cases hv12 : c "sales_tax" <;> rw [hv12] at h
  · simp at h
  rename_i v12
  cases hv13 : c "utilities" <;> rw [hv13] at h
  · simp at h
  rename_i v13
  cases hv14 : c "transportation_cost" <;> rw [hv14] at h
  · simp at h
  rename_i v14
  simp only [calculate_normalized_percentage_self] at h
  norm_num [round2, round_eq] at h
  subst h
  exact ⟨rfl, rfl, rfl, rfl, rfl⟩

/-- C2 witness: the conclusion of `compare_cities_self_strengths` holds at
the concrete record whose fields are all `"1"`. -/
theorem compare_cities_self_strengths_witness :
    (⟨3333/100, 20, 3333/100, 100, 4667/100,
      ⟨"City 2", "City 2", "City 2", "City 1"⟩⟩ : ComparisonResult).strengths.housing_affordability = "City 2" ∧
    (⟨3333/100, 20, 3333/100, 100, 4667/100,
      ⟨"City 2", "City 2", "City 2", "City 1"⟩⟩ : ComparisonResult).strengths.quality_of_life = "City 2" ∧
    (⟨3333/100, 20, 3333/100, 100, 4667/100,
      ⟨"City 2", "City 2", "City 2", "City 1"⟩⟩ : ComparisonResult).strengths.job_market_strength = "City 2" ∧
    (⟨3333/100, 20, 3333/100, 100, 4667/100,
      ⟨"City 2", "City 2", "City 2", "City 1"⟩⟩ : ComparisonResult).strengths.living_affordability = "City 1" ∧
    (⟨3333/100, 20, 3333/100, 100, 4667/100,
      ⟨"City 2", "City 2", "City 2", "City 1"⟩⟩ : ComparisonResult).living_affordability = 100 :=
  compare_cities_self_strengths unitComparisonRecord _ (by
    simp +decide [compare_cities, unitComparisonRecord, mkRecord, comparisonFields,
      List.map, List.find?, calculate_normalized_percentage, extract_numeric,
      removeChar, replaceChar, pyStrip, isPyWhitespace, pyFloat, pyFloatUnsigned,
      digitsToNat, round2, round_eq]
    norm_num)

/-- C2 counterexample: comparing the all-"1" record with itself yields a
strengths map whose `living_affordability` entry is "City 1", so not every
dimension is labeled "City 2". -/
theorem compare_cities_identical_labels_city1 :
    compare_cities unitComparisonRecord unitComparisonRecord =
      some ⟨3333/100, 20, 3333/100, 100, 4667/100,
        ⟨"City 2", "City 2", "City 2", "City 1"⟩⟩ ∧
    ("City 1" : String) ≠ "City 2" :=
  ⟨by
    simp +decide [compare_cities, unitComparisonRecord, mkRecord, comparisonFields,
      List.map, List.find?, calculate_normalized_percentage, extract_numeric,
      removeChar, replaceChar, pyStrip, isPyWhitespace, pyFloat, pyFloatUnsigned,
      digitsToNat, round2, round_eq]
    norm_num, by decide⟩

/-- C8: the comparator is fail-soft with respect to malformed values:
whenever both records contain all fifteen fields the comparator reads,
`compare_cities` returns a full result, and any pairwise difference term
either of whose inputs fails numeric extraction contributes exactly `0`. -/
theorem compare_cities_fail_soft :
    (∀ c1 c2 : Record,
      (∀ k ∈ comparisonFields, (c1 k).isSome ∧ (c2 k).isSome) →
      (compare_cities c1 c2).isSome) ∧
    (∀ (v1 v2 : String) (b : Bool),
      extract_numeric v1 = none ∨ extract_numeric v2 = none →
      calculate_normalized_percentage v1 v2 b = 0) :=
  ⟨compare_cities_isSome_of_fields,
   calculate_normalized_percentage_eq_zero_of_parse_failure⟩

/-- C8 witness: a record with several malformed values ("N/A", "??", …)
but all fields present still yields a comparison result, and the term on
the malformed `home_price` contributes zero. -/
theorem compare_cities_fail_soft_witness :
    (compare_cities dirtyComparisonRecord unitComparisonRecord).isSome ∧
    calculate_normalized_percentage "N/A" "1" false = 0 :=
  ⟨compare_cities_fail_soft.1 dirtyComparisonRecord unitComparisonRecord (by decide),
   compare_cities_fail_soft.2 "N/A" "1" false (Or.inl (by decide))⟩

/-- C10: the fail-soft policy does not extend to missing fields: if any of
the fifteen fields the comparator reads is absent from either record,
`compare_cities` raises a `KeyError` (modelled as `none`) instead of
returning a result. -/
theorem compare_cities_missing_field_none :
    ∀ (c1 c2 : Record) (k : String), k ∈ comparisonFields →
      (c1 k = none ∨ c2 k = none) → compare_cities c1 c2 = none := by
  intro c1 c2 k hk hnone
  by_contra hne
  have hs : (compare_cities c1 c2).isSome := Option.ne_none_iff_isSome.mp hne
  have hpair := compare_cities_fields_of_isSome c1 c2 hs k hk
  rcases hnone with h | h
  · rw [h] at hpair; exact absurd hpair.1 (by simp)
  · rw [h] at hpair; exact absurd hpair.2 (by simp)

/-- C10 witness: a record missing the `education` field makes the
comparison fail with a key error. -/
theorem compare_cities_missing_field_none_witness :
    compare_cities missingFieldRecord unitComparisonRecord = none :=
  compare_cities_missing_field_none missingFieldRecord unitComparisonRecord
    "education" (by decide) (Or.inl (by decide))

/-- C9: `parse_price` accepts the string `"0"` with value `0`, and on any
record whose `home_price` parses and whose `median_household_income`
parses to zero, `get_city_score` fails with the unguarded
`ZeroDivisionError` from the `home_price / median_income` ratio, not with
the `ValueError` of a failed parse. -/
theorem get_city_score_zero_income_division_error :
    parse_price "0" = some 0 ∧
    ∀ (r : Record) (hs ms : String) (hv : ℚ),
      r "home_price" = some hs → r "median_household_income" = some ms →
      parse_price hs = some hv → parse_price ms = some 0 →
      get_city_score r = Except.error PyError.zeroDivisionError := by
  refine ⟨by decide, ?_⟩
  intro r hs ms hv h1 h2 hp1 hp2
  simp [get_city_score, getField, h1, h2, calculate_housing_affordability,
    parsePriceE, hp1, hp2]

/-- C9 witness: the concrete record with `median_household_income = "0"`
makes scoring fail with a division-by-zero error. -/
theorem get_city_score_zero_income_division_error_witness :
    get_city_score zeroIncomeRecord = Except.error PyError.zeroDivisionError :=
  get_city_score_zero_income_division_error.2 zeroIncomeRecord "500000" "0" 500000
    (by decide) (by decide) (by decide) (by decide)

/-- C4 (amended): `parse_percentage` removes every `%` character,
wherever it occurs in the string (Python's `str.replace` is global, not
anchored to a single trailing occurrence), and parses the remainder as a
float, failing exactly when the remainder is not numeric;
`parse_percentage("6.5%") = 6.5`. -/
theorem parse_percentage_strips_all_percents :
    (∀ s : String,
      parse_percentage s = pyFloat (s.data.filter (fun x => x != '%'))) ∧
    parse_percentage "6.5%" = some (13/2) ∧
    parse_percentage "abc" = none :=
  ⟨fun s => by rw [parse_percentage, removeChar_eq_filter],
   by
     simp [parse_percentage, removeChar, pyFloat, pyFloatUnsigned, digitsToNat,
       List.takeWhile, List.dropWhile]
     norm_num,
   by decide⟩

/-- C4 counterexample: the string `"%6.5"` carries a `%` that is not a
single trailing occurrence, yet `parse_percentage` accepts it and returns
`6.5` instead of rejecting it. -/
theorem parse_percentage_leading_percent_accepted :
    parse_percentage "%6.5" = some (13/2) := by
  simp [parse_percentage, removeChar, pyFloat, pyFloatUnsigned, digitsToNat,
    List.takeWhile, List.dropWhile]
  norm_num

/-- C3: `parse_price`, after stripping `$`, commas and spaces, succeeds
exactly on strings matching the case-insensitive regex
`^(\\d+(\\.\\d+)?)([KMBT]?)$`, and on a match returns the matched number
times the suffix multiplier (K = 10³, M = 10⁶, B = 10⁹, T = 10¹², default
1); in particular `parse_price "$1.5M" = 1500000`,
`parse_price "2,500" = 2500`, and the empty string is rejected. -/
theorem parse_price_spec :
    (∀ s : String, (parse_price s).isSome ↔ pricePattern (stripPrice s.data)) ∧
    (∀ d f sfx : List Char, d ≠ [] → (∀ c ∈ d, c.isDigit) →
      (f = [] ∨ ∃ fd, f = '.' :: fd ∧ fd ≠ [] ∧ ∀ c ∈ fd, c.isDigit) →
      (sfx = [] ∨ ∃ c, sfx = [c] ∧ isPriceSuffix c) →
      parsePriceCore (d ++ f ++ sfx) =
        some (((digitsToNat d : ℚ) + fractionValue f) * suffixValue sfx)) ∧
    parse_price "$1.5M" = some 1500000 ∧
    parse_price "2,500" = some 2500 ∧
    parse_price "" = none := by
  refine ⟨?_, parsePriceCore_of_pattern, ?_, by decide, by decide⟩
  · intro s
    constructor
    · exact fun h => pricePattern_of_isSome _ h
    · rintro ⟨d, f, sfx, ht, hd, hdd, hf, hs⟩
      rw [parse_price, ht, parsePriceCore_of_pattern d f sfx hd hdd hf hs]
      simp
  · simp [parse_price, stripPrice, removeChar, parsePriceCore, digitsToNat,
      isPriceSuffix, suffixMultiplier, List.takeWhile, List.dropWhile]
    norm_num

/-- C3 witness: `"$1.5M"` matches the pattern, and the value formula
evaluates on the concrete decomposition `"12" ++ "" ++ "K"`. -/
theorem parse_price_spec_witness :
    pricePattern (stripPrice "$1.5M".data) ∧
    parsePriceCore ("12".data ++ [] ++ ['K']) =
      some (((digitsToNat "12".data : ℚ) + fractionValue []) * suffixValue ['K']) :=
  ⟨(parse_price_spec.1 "$1.5M").mp (by decide),
   parse_price_spec.2.1 "12".data [] ['K'] (by decide) (by decide)
     (Or.inl rfl) (Or.inr ⟨'K', rfl, by decide⟩)⟩

/-- C5 (amended): the comparator's `extract_numeric` agrees with the
scorer's `parse_price` on currency strings whose numeric part is an
integer (optionally interleaved with `$`, commas and spaces) with an
optional uppercase `K`/`M`/`B` suffix: both return the digit value times
the suffix multiplier.  (The agreement breaks exactly where the textual
suffix substitution misbehaves: on a decimal number a suffix appends
zeros to the fractional digits — see the counterexample — and lowercase
or `T` suffixes make `extract_numeric` raise where `parse_price`
succeeds.) -/
theorem extract_numeric_agrees_on_integer_prices :
    ∀ (s : String) (d sfx : List Char),
      stripPrice s.data = d ++ sfx → d ≠ [] → (∀ c ∈ d, c.isDigit) →
      (sfx = [] ∨ sfx = ['K'] ∨ sfx = ['M'] ∨ sfx = ['B']) →
      extract_numeric s = parse_price s ∧
      parse_price s = some ((digitsToNat d : ℚ) * suffixValue sfx) := by
  intro s d sfx hsp hd hdd hsfx
  have hKd : ('K' : Char) ∉ d := fun hm => absurd (hdd 'K' hm) (by decide)
  have hMd : ('M' : Char) ∉ d := fun hm => absurd (hdd 'M' hm) (by decide)
  have hBd : ('B' : Char) ∉ d := fun hm => absurd (hdd 'B' hm) (by decide)
  have hpp : parse_price s = some ((digitsToNat d : ℚ) * suffixValue sfx) := by
    rw [parse_price, hsp]
    have hs2 : sfx = [] ∨ ∃ c, sfx = [c] ∧ isPriceSuffix c := by
      rcases hsfx with rfl | rfl | rfl | rfl
      · exact Or.inl rfl
      · exact Or.inr ⟨'K', rfl, by decide⟩
      · exact Or.inr ⟨'M', rfl, by decide⟩
      · exact Or.inr ⟨'B', rfl, by decide⟩
    have hval := parsePriceCore_of_pattern d [] sfx hd hdd (Or.inl rfl) hs2
    simpa [fractionValue] using hval
  refine ⟨?_, hpp⟩
  rw [hpp]
  unfold extract_numeric
  rw [removeChar_replaceChar_comm _ _ (by decide) (by decide),
    removeChar_replaceChar_comm _ _ (by decide) (by decide),
    removeChar_replaceChar_comm _ _ (by decide) (by decide),
    removeChar_replaceChar_comm _ _ (by decide) (by decide),
    removeChar_replaceChar_comm _ _ (by decide) (by decide),
    removeChar_replaceChar_comm _ _ (by decide) (by decide)]
  rcases hsfx with rfl | rfl | rfl | rfl
  · -- no suffix
    simp only [List.append_nil] at hsp
    rw [show removeChar ' ' (removeChar ',' (removeChar '$' s.data)) = d from hsp]
    rw [replaceChar_of_not_mem _ hKd, replaceChar_of_not_mem _ hMd,
      replaceChar_of_not_mem _ hBd]
    rw [pyStrip_of_forall (fun c hc => digit_not_pyWhitespace (hdd c hc))]
    rw [pyFloat_digits d hd hdd]
    simp [suffixValue]
  · -- suffix 'K'
    rw [show removeChar ' ' (removeChar ',' (removeChar '$' s.data)) =
      d ++ ['K'] from hsp]
    simp only [replaceChar_append, replaceChar_of_not_mem _ hKd,
      replaceChar_of_not_mem _ hMd, replaceChar_of_not_mem _ hBd]
    rw [show replaceChar 'B' "000000000".data
        (replaceChar 'M' "000000".data
          (replaceChar 'K' "000".data ['K'])) =
      List.replicate 3 '0' from by decide]
    have hall : ∀ c ∈ d ++ List.replicate 3 '0', c.isDigit := by
      intro c hc
      rcases List.mem_append.mp hc with hc1 | hc2
      · exact hdd c hc1
      · rw [List.eq_of_mem_replicate hc2]
        decide
    rw [pyStrip_of_forall (fun c hc => digit_not_pyWhitespace (hall c hc))]
    rw [pyFloat_digits _ (by simp [hd]) hall]
    rw [digitsToNat_append_zeros]
    simp [suffixValue, suffixMultiplier]
  · -- suffix 'M'
    rw [show removeChar ' ' (removeChar ',' (removeChar '$' s.data)) =
      d ++ ['M'] from hsp]
    simp only [replaceChar_append, replaceChar_of_not_mem _ hKd,
      replaceChar_of_not_mem _ hMd, replaceChar_of_not_mem _ hBd]
    rw [show replaceChar 'B' "000000000".data
        (replaceChar 'M' "000000".data
          (replaceChar 'K' "000".data ['M'])) =
      List.replicate 6 '0' from by decide]
    have hall : ∀ c ∈ d ++ List.replicate 6 '0', c.isDigit := by
      intro c hc
      rcases List.mem_append.mp hc with hc1 | hc2
      · exact hdd c hc1
      · rw [List.eq_of_mem_replicate hc2]
        decide
    rw [pyStrip_of_forall (fun c hc => digit_not_pyWhitespace (hall c hc))]
    rw [pyFloat_digits _ (by simp [hd]) hall]
    rw [digitsToNat_append_zeros]
    simp [suffixValue, suffixMultiplier]
  · -- suffix 'B'
    rw [show removeChar ' ' (removeChar ',' (removeChar '$' s.data)) =
      d ++ ['B'] from hsp]
    simp only [replaceChar_append, replaceChar_of_not_mem _ hKd,
      replaceChar_of_not_mem _ hMd, replaceChar_of_not_mem _ hBd]
    rw [show replaceChar 'B' "000000000".data
        (replaceChar 'M' "000000".data
          (replaceChar 'K' "000".data ['B'])) =
      List.replicate 9 '0' from by decide]
    have hall : ∀ c ∈ d ++ List.replicate 9 '0', c.isDigit := by
      intro c hc
      rcases List.mem_append.mp hc with hc1 | hc2
      · exact hdd c hc1
      · rw [List.eq_of_mem_replicate hc2]
        decide
    rw [pyStrip_of_forall (fun c hc => digit_not_pyWhitespace (hall c hc))]
    rw [pyFloat_digits _ (by simp [hd]) hall]
    rw [digitsToNat_append_zeros]
    simp [suffixValue, suffixMultiplier]

/-- C5 witness: on `"$1,200K"` (integer digits, commas, uppercase
suffix) the two parsers agree, both giving `1200 * 1000`. -/
theorem extract_numeric_agrees_witness :
    extract_numeric "$1,200K" = parse_price "$1,200K" ∧
    parse_price "$1,200K" =
      some ((digitsToNat "1200".data : ℚ) * suffixValue ['K']) :=
  extract_numeric_agrees_on_integer_prices "$1,200K" "1200".data ['K']
    (by decide) (by decide) (by decide) (Or.inr (Or.inl rfl))

/-- C5 counterexample: on `"1.5M"`, accepted by `parse_price` with value
`1500000`, the comparator's `extract_numeric` textually replaces `M` with
six zeros producing `"1.5000000"` and returns `1.5`: the two parsers
disagree. -/
theorem extract_numeric_decimal_suffix_disagrees :
    parse_price "1.5M" = some 1500000 ∧
    extract_numeric "1.5M" = some (3/2) ∧
    (3/2 : ℚ) ≠ 1500000 := by
  refine ⟨?_, ?_, by norm_num⟩
  · simp [parse_price, stripPrice, removeChar, parsePriceCore, digitsToNat,
      isPriceSuffix, suffixMultiplier, List.takeWhile, List.dropWhile]
    norm_num
  · simp [extract_numeric, removeChar, replaceChar, pyStrip, isPyWhitespace,
      pyFloat, pyFloatUnsigned, digitsToNat, List.takeWhile, List.dropWhile]
    norm_num

end CityScore
